import Mathlib

/-!
# Verification of the mapillary-python-sdk filter/format core

Shallow embedding of `utils/format.py`, `controller/rules/verify.py` and
`controller/feature.py`, with theorems checking the natural-language
specification against the code.

Python values are modelled by the inductive type `JVal` (dicts are ordered
association lists, as Python dicts preserve insertion order); Python
exceptions by `PyError`; fallible code returns `Except PyError`.
-/

/-- A Python/JSON value: `None`, a string, an integer, a list, or a dict
(ordered association list of string keys, mirroring Python dict insertion
order). -/
inductive JVal where
  | null : JVal
  | str : String → JVal
  | int : Int → JVal
  | arr : List JVal → JVal
  | obj : List (String × JVal) → JVal

mutual

/-- Python `==` on values: structural equality (cross-type comparison is
`False`, as in Python for the value shapes used here). -/
def JVal.beq : JVal → JVal → Bool
  | .null, .null => true
  | .str a, .str b => a == b
  | .int a, .int b => a == b
  | .arr xs, .arr ys => JVal.beqArr xs ys
  | .obj xs, .obj ys => JVal.beqObj xs ys
  | _, _ => false

/-- Python `==` on lists of values, elementwise. -/
def JVal.beqArr : List JVal → List JVal → Bool
  | [], [] => true
  | x :: xs, y :: ys => JVal.beq x y && JVal.beqArr xs ys
  | _, _ => false

/-- Python `==` on dicts represented as ordered association lists. -/
def JVal.beqObj : List (String × JVal) → List (String × JVal) → Bool
  | [], [] => true
  | (k1, v1) :: xs, (k2, v2) :: ys =>
      k1 == k2 && JVal.beq v1 v2 && JVal.beqObj xs ys
  | _, _ => false

end

/-- Python exceptions raised by the embedded code.  `missingGeometryError`
is modelled from the spec: the spec names a `MissingGeometryError`
(declared in `models/exceptions`, a module whose source is not part of the
embedded core). -/
inductive PyError where
  | keyError : String → PyError
  | typeError : String → PyError
  | invalidKwargError : String → String → JVal → List String → PyError
  | contradictingError : String → String → PyError
  | invalidOptionError : String → JVal → List JVal → PyError
  | missingGeometryError : PyError

/-- `d[k]` lookup on an ordered dict: first binding of `k`, if any. -/
def dictGet (d : List (String × JVal)) (k : String) : Option JVal :=
  match d with
  | [] => none
  | (k1, v) :: rest => if k1 = k then some v else dictGet rest k

/-- `k in d` on a dict. -/
def dictHas (d : List (String × JVal)) (k : String) : Bool :=
  (dictGet d k).isSome

/-- `d[k] = v` assignment on an ordered dict: updates the binding in place
if `k` is present, otherwise appends it (Python dict semantics). -/
def dictSet (d : List (String × JVal)) (k : String) (v : JVal) :
    List (String × JVal) :=
  match d with
  | [] => [(k, v)]
  | (k1, v1) :: rest =>
      if k1 = k then (k, v) :: rest else (k1, v1) :: dictSet rest k v

/-- Python subscript `v[key]` with a string key: succeeds on a dict holding
the key, raises `KeyError` on a dict missing it, and `TypeError` on
strings, lists and scalars. -/
def pyGet (v : JVal) (key : String) : Except PyError JVal :=
  match v with
  | .obj d =>
      match dictGet d key with
      | some x => .ok x
      | none => .error (.keyError key)
  | .str _ => .error (.typeError "string indices must be integers")
  | .arr _ => .error (.typeError "list indices must be integers or slices, not str")
  | _ => .error (.typeError "object is not subscriptable")

/-- Python `needle in hay` on strings: substring test. -/
def pyStrIn (needle hay : String) : Bool :=
  (List.range (hay.toList.length + 1)).any
    (fun i => needle.toList.isPrefixOf (hay.toList.drop i))

/-- Python `int(v)`: identity on ints, parse on strings, `TypeError`
otherwise. -/
def pyInt (v : JVal) : Except PyError Int :=
  match v with
  | .int n => .ok n
  | .str s =>
      match s.toInt? with
      | some n => .ok n
      | none => .error (.typeError "invalid literal for int() with base 10")
  | _ => .error (.typeError "int() argument must be a string or a number")

/-- Python `v < m` against an int literal: succeeds only on ints. -/
def pyLtInt (v : JVal) (m : Int) : Except PyError Bool :=
  match v with
  | .int n => .ok (decide (n < m))
  | _ => .error (.typeError "comparison not supported between instances")

/-- Python `v > m` against an int literal: succeeds only on ints. -/
def pyGtInt (v : JVal) (m : Int) : Except PyError Bool :=
  match v with
  | .int n => .ok (decide (n > m))
  | _ => .error (.typeError "comparison not supported between instances")

/-! ## `json.dumps` (Python standard library, default separators) -/

/-- Escape one character as `json.dumps` does for the plain characters used
here (quote and backslash; other characters pass through verbatim). -/
def jsonEscapeChar (c : Char) : String :=
  if c = '"' then "\\\"" else if c = '\\' then "\\\\" else String.singleton c

/-- Escape a string body for JSON serialization. -/
def jsonEscape (s : String) : String :=
  String.join (s.toList.map jsonEscapeChar)

mutual

/-- `json.dumps(v)` with Python's default separators (", " between items,
": " between a key and a value). -/
def dumps : JVal → String
  | .null => "null"
  | .str s => "\"" ++ jsonEscape s ++ "\""
  | .int n => toString n
  | .arr xs => "[" ++ dumpsArr xs ++ "]"
  | .obj d => "\x7b" ++ dumpsObj d ++ "\x7d"

/-- Serialize the comma-separated items of a JSON array. -/
def dumpsArr : List JVal → String
  | [] => ""
  | [x] => dumps x
  | x :: xs => dumps x ++ ", " ++ dumpsArr xs

/-- Serialize the comma-separated entries of a JSON object. -/
def dumpsObj : List (String × JVal) → String
  | [] => ""
  | [(k, v)] => "\"" ++ jsonEscape k ++ "\": " ++ dumps v
  | (k, v) :: d => "\"" ++ jsonEscape k ++ "\": " ++ dumps v ++ ", " ++ dumpsObj d

end

/-! ## `utils/format.py` -/

/-- `feature_to_geojson(json_data)`: collects the non-geometry keys, builds
a Feature skeleton, copies `json_data["geometry"]` (a `KeyError` when the
record has no geometry), then copies every other attribute into
`properties` in key order. -/
def feature_to_geojson (json_data : List (String × JVal)) : Except PyError JVal :=
  let keys := (json_data.map Prod.fst).filter (fun key => key ≠ "geometry")
  match dictGet json_data "geometry" with
  | none => .error (.keyError "geometry")
  | some g =>
      let props := keys.foldl
        (fun acc key => dictSet acc key ((dictGet json_data key).getD .null)) []
      .ok (.obj [("type", .str "Feature"), ("geometry", g),
                 ("properties", .obj props)])

/-- `geojson_to_features_list(json_data)`: `json_data["features"]`. -/
def geojson_to_features_list (json_data : JVal) : Except PyError JVal :=
  pyGet json_data "features"

/-- The dict literal `json.dumps` is applied to inside
`merged_features_list_to_geojson`. -/
def merged_features_collection (features_list : List JVal) : JVal :=
  .obj [("type", .str "FeatureCollection"), ("features", .arr features_list)]

/-- `merged_features_list_to_geojson(features_list)`: serializes the
FeatureCollection dict to a JSON string (the Python function returns
`json.dumps(...)`, a `str`). -/
def merged_features_list_to_geojson (features_list : List JVal) : String :=
  dumps (merged_features_collection features_list)

/-- Python list subscription with a string key, as in
`old_properties["properties"]` where `old_properties` is a list of key
names: always a `TypeError`. -/
def pyListSubscriptStr (_ : List String) (_ : String) : Except PyError JVal :=
  .error (.typeError "list indices must be integers or slices, not str")

/-- The keys of a dict value (`.keys()`); `TypeError` on non-dicts. -/
def pyKeys (v : JVal) : Except PyError (List String) :=
  match v with
  | .obj d => .ok (d.map Prod.fst)
  | _ => .error (.typeError "object has no keys")

/-- Python `k in v` where `v` is a dict: key membership; `TypeError`
otherwise (the embedded call sites only probe dicts). -/
def pyHasKey (v : JVal) (k : String) : Except PyError Bool :=
  match v with
  | .obj d => .ok (dictHas d k)
  | _ => .error (.typeError "argument is not a mapping")

/-- Item assignment `v[k] = x` on a dict value. -/
def pySetKey (v : JVal) (k : String) (x : JVal) : Except PyError JVal :=
  match v with
  | .obj d => .ok (.obj (dictSet d k x))
  | _ => .error (.typeError "object does not support item assignment")

/-- The inner copy loop of `join_geojson_with_keys`:
`for new_property in new_properties: if new_property not in old_properties:
from_features["properties"][new_property] = old_properties["properties"][new_property]`.
The right-hand side subscripts `old_properties` — a Python *list* of key
names — with the string `"properties"`, so it raises `TypeError` the first
time the guard passes. -/
def joinCopy (old_properties : List String) (new_properties : List String)
    (ff : JVal) : Except PyError JVal :=
  match new_properties with
  | [] => .ok ff
  | np :: rest =>
      if old_properties.contains np then joinCopy old_properties rest ff
      else
        match pyListSubscriptStr old_properties "properties" with
        | .error e => .error e
        | .ok tmp =>
            match pyGet tmp np with
            | .error e => .error e
            | .ok v =>
                match pyGet ff "properties" with
                | .error e => .error e
                | .ok fprops =>
                    match pySetKey fprops np v with
                    | .error e => .error e
                    | .ok fprops2 =>
                        match pySetKey ff "properties" fprops2 with
                        | .error e => .error e
                        | .ok ff2 => joinCopy old_properties rest ff2

/-- One iteration of the inner `for into_features in geojson_dest["features"]`
loop of `join_geojson_with_keys`, threading the (possibly mutated) source
feature. -/
def joinInnerStep (src_key dest_key : String) (ff into : JVal) :
    Except PyError JVal :=
  match pyGet into "properties" with
  | .error e => .error e
  | .ok intoProps =>
      match pyHasKey intoProps dest_key with
      | .error e => .error e
      | .ok hasDest =>
          if !hasDest then .ok ff
          else
            match pyGet ff "properties" with
            | .error e => .error e
            | .ok fromProps =>
                match pyHasKey fromProps src_key with
                | .error e => .error e
                | .ok hasSrc =>
                    if !hasSrc then .ok ff
                    else
                      match pyGet fromProps src_key with
                      | .error e => .error e
                      | .ok fv =>
                          match pyInt fv with
                          | .error e => .error e
                          | .ok a =>
                              match pyGet intoProps dest_key with
                              | .error e => .error e
                              | .ok iv =>
                                  match pyInt iv with
                                  | .error e => .error e
                                  | .ok b =>
                                      if a = b then
                                        match pyKeys fromProps with
                                        | .error e => .error e
                                        | .ok old_properties =>
                                            match pyKeys intoProps with
                                            | .error e => .error e
                                            | .ok new_properties =>
                                                joinCopy old_properties
                                                  new_properties ff
                                      else .ok ff

/-- Fold of `joinInnerStep` over the destination features. -/
def joinInnerLoop (src_key dest_key : String) (destFeats : List JVal)
    (ff : JVal) : Except PyError JVal :=
  match destFeats with
  | [] => .ok ff
  | into :: rest =>
      match joinInnerStep src_key dest_key ff into with
      | .error e => .error e
      | .ok ff2 => joinInnerLoop src_key dest_key rest ff2

/-- The outer `for from_features in geojson_src["features"]` loop, mapping
each source feature through the inner loop. -/
def joinOuterLoop (src_key dest_key : String) (destFeats : List JVal) :
    List JVal → Except PyError (List JVal)
  | [] => .ok []
  | ff :: rest =>
      match joinInnerLoop src_key dest_key destFeats ff with
      | .error e => .error e
      | .ok ff2 =>
          match joinOuterLoop src_key dest_key destFeats rest with
          | .error e => .error e
          | .ok rest2 => .ok (ff2 :: rest2)

/-- `join_geojson_with_keys(geojson_src, geojson_src_key, geojson_dest,
geojson_dest_key)`: nested loops over both feature lists; returns the
source collection with its (in-place mutated) features. -/
def join_geojson_with_keys (geojson_src : JVal) (geojson_src_key : String)
    (geojson_dest : JVal) (geojson_dest_key : String) :
    Except PyError JVal :=
  match pyGet geojson_src "features", pyGet geojson_dest "features" with
  | .error e, _ => .error e
  | _, .error e => .error e
  | .ok (.arr srcFeats), .ok (.arr destFeats) =>
      match joinOuterLoop geojson_src_key geojson_dest_key destFeats srcFeats with
      | .error e => .error e
      | .ok srcFeats2 =>
          match geojson_src with
          | .obj d => .ok (.obj (dictSet d "features" (.arr srcFeats2)))
          | other => .ok other
  | _, _ => .error (.typeError "object is not iterable")

/-- The `geometry` entry of one output feature of
`detection_features_to_geojson`: the image's point location when the record
carries `image`, an empty dict otherwise. -/
def detection_geometry (feature : List (String × JVal)) : Except PyError JVal :=
  if dictHas feature "image" then
    match pyGet (.obj feature) "image" with
    | .error e => .error e
    | .ok img =>
        match pyGet img "geometry" with
        | .error e => .error e
        | .ok g =>
            match pyGet g "coordinates" with
            | .error e => .error e
            | .ok c => .ok (.obj [("type", .str "Point"), ("coordinates", c)])
  else .ok (.obj [])

/-- The `image_id` entry:
`feature["image"]["id"] if "image" in "feature" else None`.  The guard is a
substring test of `"image"` in the string literal `"feature"`. -/
def detection_image_id (feature : List (String × JVal)) : Except PyError JVal :=
  if pyStrIn "image" "feature" then
    match pyGet (.obj feature) "image" with
    | .error e => .error e
    | .ok img => pyGet img "id"
  else .ok .null

/-- One output feature of `detection_features_to_geojson`, before the
None-removal pass. -/
def detection_feature (feature : List (String × JVal)) : Except PyError JVal :=
  match detection_geometry feature with
  | .error e => .error e
  | .ok geom =>
      match detection_image_id feature with
      | .error e => .error e
      | .ok image_id =>
          match pyGet (.obj feature) "id" with
          | .error e => .error e
          | .ok fid =>
              .ok (.obj [("type", .str "Feature"), ("geometry", geom),
                ("properties", .obj [
                  ("image_id", image_id),
                  ("created_at",
                    if dictHas feature "created_at" then
                      (dictGet feature "created_at").getD .null
                    else .null),
                  ("pixel_geometry",
                    if dictHas feature "geometry" then
                      (dictGet feature "geometry").getD .null
                    else .null),
                  ("value",
                    if dictHas feature "value" then
                      (dictGet feature "value").getD .null
                    else .null),
                  ("id", fid)])])

/-- The list comprehension of `detection_features_to_geojson`, one output
feature per input record. -/
def detectionFeatures : List (List (String × JVal)) → Except PyError (List JVal)
  | [] => .ok []
  | f :: rest =>
      match detection_feature f with
      | .error e => .error e
      | .ok v =>
          match detectionFeatures rest with
          | .error e => .error e
          | .ok vs => .ok (v :: vs)

/-- The test `_property is None` of the removal pass, where `_property`
iterates over the *keys* of the properties dict; the keys are the string
literals written in the comprehension, so the test is never true. -/
def pyStrIsNone (_ : String) : Bool := false

/-- The removal pass of `detection_features_to_geojson`:
`for _property in _feature["properties"]: if _property is None:
del _feature["properties"][_property]`.  It deletes the properties whose
*key* "is None"; string keys never are, so every property survives. -/
def remove_none_properties (feat : JVal) : JVal :=
  match feat with
  | .obj d =>
      .obj (d.map (fun kv =>
        if kv.1 = "properties" then
          (kv.1,
           match kv.2 with
           | .obj props => JVal.obj (props.filter (fun p => !(pyStrIsNone p.1)))
           | other => other)
        else kv))
  | other => other

/-- `detection_features_to_geojson(feature_list)`: builds the
FeatureCollection by comprehension, then runs the None-removal pass over
each output feature's properties. -/
def detection_features_to_geojson (feature_list : List (List (String × JVal))) :
    Except PyError JVal :=
  match detectionFeatures feature_list with
  | .error e => .error e
  | .ok feats =>
      .ok (.obj [("type", .str "FeatureCollection"),
                 ("features", .arr (feats.map remove_none_properties))])

/-! ## `controller/rules/verify.py` -/

/-- The tail of `kwarg_check` from the `is_pano` test on: raises
`InvalidOptionError` when `is_pano` is present with a value outside
`['pano', 'flat', 'all']`, otherwise returns `True`. -/
def kwarg_check_pano (kw : List (String × JVal)) : Except PyError Bool :=
  if dictHas kw "is_pano" &&
     !(([JVal.str "pano", .str "flat", .str "all"].any
        (fun v => JVal.beq ((dictGet kw "is_pano").getD .null) v))) then
    .error (.invalidOptionError "is_pano" ((dictGet kw "is_pano").getD .null)
      [.str "pano", .str "flat", .str "all"])
  else .ok true

/-- The `zoom` test of `kwarg_check`:
`("zoom" in kwargs) and (kwargs["zoom"] < 14 or kwargs["zoom"] > 17)`,
short-circuiting, raising `InvalidOptionError(param='zoom', ...,
options=[14, 15, 16, 17])` on an out-of-range zoom. -/
def kwarg_check_zoom (kw : List (String × JVal)) : Except PyError Bool :=
  if dictHas kw "zoom" then
    match pyLtInt ((dictGet kw "zoom").getD .null) 14 with
    | .error e => .error e
    | .ok true =>
        .error (.invalidOptionError "zoom" ((dictGet kw "zoom").getD .null)
          [.int 14, .int 15, .int 16, .int 17])
    | .ok false =>
        match pyGtInt ((dictGet kw "zoom").getD .null) 17 with
        | .error e => .error e
        | .ok true =>
            .error (.invalidOptionError "zoom" ((dictGet kw "zoom").getD .null)
              [.int 14, .int 15, .int 16, .int 17])
        | .ok false => kwarg_check_pano kw
  else kwarg_check_pano kw

/-- `kwarg_check(kwargs, options, callback)`.  The `if kwargs is not None`
guard covers only the per-key loop; the later membership tests
(`"min_date" in kwargs`, ...) run unconditionally, so `kwargs = None`
raises `TypeError` at the first membership test. -/
def kwarg_check (kwargs : Option (List (String × JVal))) (options : List String)
    (callback : String) : Except PyError Bool :=
  match (match kwargs with
         | some kw => kw.find? (fun kv : String × JVal => !(decide (kv.1 ∈ options)))
         | none => none) with
  | some kv => .error (.invalidKwargError callback kv.1 kv.2 options)
  | none =>
      match kwargs with
      | none => .error (.typeError "argument of type NoneType is not iterable")
      | some kw =>
          if (dictHas kw "min_date" || dictHas kw "max_date") &&
             dictHas kw "daterange" then
            .error (.contradictingError "daterange" "min_date/max_date")
          else kwarg_check_zoom kw

/-! ## `controller/feature.py` -/

/-- Python `v is None`. -/
def pyIsNone : JVal → Bool
  | .null => true
  | _ => false

/-- A slippy-map tile coordinate, as produced by `mercantile.tiles` (an
external collaborator; the enumerated tile list is a parameter of the
controller model). -/
structure Tile where
  x : Int
  y : Int
  z : Int

/-- Observable events of one controller call: a tile HTTP request
(`client.get(url)`) and a filter-pipeline invocation with its stage list. -/
inductive CtrlEvent where
  | fetchTile : String → CtrlEvent
  | pipelineCall : List JVal → CtrlEvent

/-- Modelled from the spec: `points_traffic_signs_check` (from
`utils.verify`, a module whose source is not part of the embedded core) is
the validation collaborator of `get_map_features_in_bbox_controller`.  Per
the spec it is "given the filters mapping and the operation name, returns
the validated/normalized filters mapping or fails with one of:
unknown-key error, contradictory-option error, out-of-range option error";
the filters mapping for this operation has the optional keys `existed_at`
and `existed_before`, and the normalized mapping carries both keys (absent
ones as `None`), since the controller reads both unconditionally. -/
def points_traffic_signs_check (filters : List (String × JVal)) :
    Except PyError (List (String × JVal)) :=
  match filters.find?
      (fun kv : String × JVal =>
        !(decide (kv.1 ∈ ["existed_at", "existed_before"]))) with
  | some kv =>
      .error (.invalidKwargError "points_traffic_signs_check" kv.1 kv.2
        ["existed_at", "existed_before"])
  | none =>
      .ok [("existed_at", (dictGet filters "existed_at").getD .null),
           ("existed_before", (dictGet filters "existed_before").getD .null)]

/-- The `components` list built inside the controller's per-tile
`pipeline(...)` call: a `filter_values` descriptor (empty dict when
`filter_values is None`), the mandatory `features_in_bounding_box`
descriptor with the original `bbox`, and `existed_at`/`existed_before`
descriptors (empty dicts when `filters["existed_at"]`/
`filters["existed_before"]` are `None`); the two reads of the validated
filters dict are `KeyError`s when the key is missing. -/
def bbox_pipeline_components (filter_values : Option JVal)
    (filters : List (String × JVal)) (bbox : JVal) :
    Except PyError (List JVal) :=
  match dictGet filters "existed_at" with
  | none => .error (.keyError "existed_at")
  | some ea =>
      match dictGet filters "existed_before" with
      | none => .error (.keyError "existed_before")
      | some eb =>
          .ok [(match filter_values with
                | some fv => JVal.obj [("filter", .str "filter_values"),
                    ("values", fv), ("property", .str "value")]
                | none => JVal.obj []),
               JVal.obj [("filter", .str "features_in_bounding_box"),
                 ("bbox", bbox)],
               (if !(pyIsNone ea) then
                  JVal.obj [("filter", .str "existed_at"), ("existed_at", ea)]
                else JVal.obj []),
               (if !(pyIsNone eb) then
                  JVal.obj [("filter", .str "existed_before"),
                    ("existed_before", eb)]
                else JVal.obj [])]

/-- The stage list as the spec words it: a `filter_values` stage present
iff `filterValues` is non-null, a mandatory `features_in_bounding_box`
stage carrying the original query bbox, an `existed_at` stage present iff
the validated filters specify `existed_at`, an `existed_before` stage
present iff they specify `existed_before`; an absent stage is an empty
(skip) descriptor. -/
def spec_stage_list (filterValues : Option JVal) (existed_at existed_before : JVal)
    (bbox : JVal) : List JVal :=
  [(match filterValues with
    | some fv => JVal.obj [("filter", .str "filter_values"), ("values", fv),
        ("property", .str "value")]
    | none => JVal.obj []),
   JVal.obj [("filter", .str "features_in_bounding_box"), ("bbox", bbox)],
   (if !(pyIsNone existed_at) then
      JVal.obj [("filter", .str "existed_at"), ("existed_at", existed_at)]
    else JVal.obj []),
   (if !(pyIsNone existed_before) then
      JVal.obj [("filter", .str "existed_before"),
        ("existed_before", existed_before)]
    else JVal.obj [])]

/-- External collaborators of `get_map_features_in_bbox_controller`: the
tile enumeration (`mercantile.tiles`), the two endpoint URL builders
(`VectorTiles.get_map_feature_point` / `..._traffic_signs`), the combined
fetch-and-decode step (`client.get` + `vt_bytes_to_geojson`), and the
filter pipeline (`utils.filter.pipeline`, outside the embedded core). -/
structure BboxCollaborators where
  tiles : List Tile
  get_map_feature_point : Tile → String
  get_map_feature_traffic_signs : Tile → String
  fetch_decode : String → Tile → JVal
  pipeline : JVal → List JVal → List JVal

/-- The `for tile in tiles` loop of the controller: per tile, build the
URL from the layer, issue the fetch (recorded as a `fetchTile` event),
decode, build the component list, run the pipeline (recorded as a
`pipelineCall` event) and extend the accumulated feature list. -/
def bboxTileLoop (C : BboxCollaborators) (bbox : JVal)
    (filter_values : Option JVal) (vfilters : List (String × JVal))
    (layer : String) :
    List Tile → List JVal → List CtrlEvent × Except PyError (List JVal)
  | [], acc => ([], .ok acc)
  | tile :: rest, acc =>
      let url := if layer = "points" then C.get_map_feature_point tile
                 else C.get_map_feature_traffic_signs tile
      let data := C.fetch_decode url tile
      match bbox_pipeline_components filter_values vfilters bbox with
      | .error e => ([CtrlEvent.fetchTile url], .error e)
      | .ok comps =>
          let kept := C.pipeline data comps
          let res :=
            bboxTileLoop C bbox filter_values vfilters layer rest (acc ++ kept)
          (CtrlEvent.fetchTile url :: CtrlEvent.pipelineCall comps :: res.1, res.2)

/-- `get_map_features_in_bbox_controller(bbox, filter_values, filters,
layer)`: validates the filters first (`filters =
points_traffic_signs_check(filters)`), then iterates the tiles, and
finally wraps the accumulated survivors via
`merged_features_list_to_geojson`.  Returns the ordered event trace of the
call next to its outcome. -/
def get_map_features_in_bbox_controller (C : BboxCollaborators) (bbox : JVal)
    (filter_values : Option JVal) (filters : List (String × JVal))
    (layer : String) : List CtrlEvent × Except PyError String :=
  match points_traffic_signs_check filters with
  | .error e => ([], .error e)
  | .ok vfilters =>
      match bboxTileLoop C bbox filter_values vfilters layer C.tiles [] with
      | (trace, .error e) => (trace, .error e)
      | (trace, .ok features) =>
          (trace, .ok (merged_features_list_to_geojson features))

/-- Observer: the `image_id` entry of a GeoJSON feature's `properties`
mapping, if any. -/
def featureImageId (feat : JVal) : Option JVal :=
  match feat with
  | .obj d =>
      match dictGet d "properties" with
      | some (.obj props) => dictGet props "image_id"
      | _ => none
  | _ => none

/-! ## Helper lemmas -/

theorem find?_allowed_eq_none (kw : List (String × JVal)) (options : List String)
    (hkeys : ∀ kv ∈ kw, kv.1 ∈ options) :
    kw.find? (fun kv : String × JVal => !(decide (kv.1 ∈ options))) = none := by
  rw [List.find?_eq_none]
  intro kv hkv
  simp [hkeys kv hkv]

theorem dictSet_append (acc : List (String × JVal)) (k : String) (v : JVal)
    (h : ∀ kv ∈ acc, kv.1 ≠ k) : dictSet acc k v = acc ++ [(k, v)] := by
  induction acc with
  | nil => rfl
  | cons hd tl ih =>
      obtain ⟨k1, v1⟩ := hd
      have hne : k1 ≠ k := h (k1, v1) (by simp)
      simp [dictSet, hne]
      exact ih (fun kv hkv => h kv (by simp [hkv]))

theorem foldl_dictSet (f : String → JVal) (keys : List String) :
    ∀ (acc : List (String × JVal)), keys.Nodup →
    (∀ k ∈ keys, ∀ kv ∈ acc, kv.1 ≠ k) →
    keys.foldl (fun a k => dictSet a k (f k)) acc =
      acc ++ keys.map (fun k => (k, f k)) := by
  induction keys with
  | nil => intro acc _ _; simp
  | cons k rest ih =>
      intro acc hnd hdisj
      rw [List.foldl_cons, dictSet_append acc k (f k)
        (fun kv hkv => hdisj k (by simp) kv hkv)]
      rw [ih (acc ++ [(k, f k)]) (List.nodup_cons.mp hnd).2 ?_]
      · simp
      · intro k2 hk2 kv hkv
        rcases List.mem_append.mp hkv with hin | hin
        · exact hdisj k2 (by simp [hk2]) kv hin
        · have hkv2 : kv = (k, f k) := by simpa using hin
          subst hkv2
          have hknr : k ∉ rest := (List.nodup_cons.mp hnd).1
          intro hh
          rw [← hh] at hk2
          exact hknr hk2

theorem dictGet_cons_ne (k0 : String) (v0 : JVal) (tl : List (String × JVal))
    (k : String) (h : k0 ≠ k) : dictGet ((k0, v0) :: tl) k = dictGet tl k := by
  simp [dictGet, h]

theorem filtered_keys_map_get (d : List (String × JVal))
    (hnd : (d.map Prod.fst).Nodup) :
    ((d.map Prod.fst).filter (fun key => key ≠ "geometry")).map
      (fun k => (k, (dictGet d k).getD .null)) =
    d.filter (fun kv => kv.1 ≠ "geometry") := by
  induction d with
  | nil => rfl
  | cons hd tl ih =>
      obtain ⟨k0, v0⟩ := hd
      simp only [List.map_cons] at hnd
      have hk0 : k0 ∉ tl.map Prod.fst := (List.nodup_cons.mp hnd).1
      have hnd2 : (tl.map Prod.fst).Nodup := (List.nodup_cons.mp hnd).2
      have hcongr :
          ((tl.map Prod.fst).filter (fun key => key ≠ "geometry")).map
            (fun k => (k, (dictGet ((k0, v0) :: tl) k).getD .null)) =
          ((tl.map Prod.fst).filter (fun key => key ≠ "geometry")).map
            (fun k => (k, (dictGet tl k).getD .null)) := by
        apply List.map_congr_left
        intro k hk
        have hmem : k ∈ tl.map Prod.fst := List.mem_of_mem_filter hk
        have : k0 ≠ k := by
          intro hh; rw [hh] at hk0; exact hk0 hmem
        rw [dictGet_cons_ne _ _ _ _ this]
      by_cases h0 : k0 = "geometry"
      · subst h0
        rw [List.map_cons,
          List.filter_cons_of_neg (p := fun key => decide (key ≠ "geometry"))
            (by simp),
          List.filter_cons_of_neg (p := fun kv : String × JVal =>
            decide (kv.1 ≠ "geometry")) (by simp)]
        rw [hcongr, ih hnd2]
      · rw [List.map_cons,
          List.filter_cons_of_pos (p := fun key => decide (key ≠ "geometry"))
            (by simp [h0]),
          List.filter_cons_of_pos (p := fun kv : String × JVal =>
            decide (kv.1 ≠ "geometry")) (by simp [h0])]
        rw [List.map_cons, hcongr, ih hnd2]
        simp [dictGet]

theorem detection_image_id_eq_null (f : List (String × JVal)) :
    detection_image_id f = .ok .null := by
  unfold detection_image_id
  have h : pyStrIn "image" "feature" = false := by decide
  rw [h]
  simp

theorem detection_feature_shape (f : List (String × JVal)) (v : JVal)
    (h : detection_feature f = .ok v) :
    ∃ geom ca pg val fid,
      v = .obj [("type", .str "Feature"), ("geometry", geom),
        ("properties", .obj [("image_id", .null), ("created_at", ca),
          ("pixel_geometry", pg), ("value", val), ("id", fid)])] := by
  unfold detection_feature at h
  split at h
  · exact absurd h (by simp)
  · rename_i geom hgeom
    split at h
    · exact absurd h (by simp)
    · rename_i image_id hiid
      have hnull : image_id = .null := by
        have h2 := detection_image_id_eq_null f
        rw [hiid] at h2
        injection h2
      subst hnull
      split at h
      · exact absurd h (by simp)
      · rename_i fid hfid
        injection h with h2
        exact ⟨geom, _, _, _, fid, h2.symm⟩

theorem detectionFeatures_mem (fl : List (List (String × JVal)))
    (fs : List JVal) (h : detectionFeatures fl = .ok fs) :
    ∀ x ∈ fs, ∃ rec, detection_feature rec = .ok x := by
  induction fl generalizing fs with
  | nil =>
      unfold detectionFeatures at h
      injection h with h2
      subst h2
      intro x hx
      simp at hx
  | cons f rest ih =>
      unfold detectionFeatures at h
      split at h
      · exact absurd h (by simp)
      · rename_i v hv
        split at h
        · exact absurd h (by simp)
        · rename_i vs hvs
          injection h with h2
          subst h2
          intro x hx
          rcases List.mem_cons.mp hx with hx | hx
          · exact ⟨f, hx ▸ hv⟩
          · exact ih vs hvs x hx

theorem points_traffic_signs_check_shape (filters vf : List (String × JVal))
    (h : points_traffic_signs_check filters = .ok vf) :
    vf = [("existed_at", (dictGet filters "existed_at").getD .null),
          ("existed_before", (dictGet filters "existed_before").getD .null)] := by
  unfold points_traffic_signs_check at h
  split at h
  · exact absurd h (by simp)
  · injection h with h2
    exact h2.symm

theorem bbox_pipeline_components_of_validated (fv : Option JVal)
    (filters vf : List (String × JVal)) (bbox : JVal)
    (h : points_traffic_signs_check filters = .ok vf) :
    bbox_pipeline_components fv vf bbox =
      .ok (spec_stage_list fv ((dictGet vf "existed_at").getD .null)
        ((dictGet vf "existed_before").getD .null) bbox) := by
  rw [points_traffic_signs_check_shape filters vf h]
  rfl

theorem bboxTileLoop_pipeline_events (C : BboxCollaborators) (bbox : JVal)
    (fv : Option JVal) (vf : List (String × JVal)) (layer : String) :
    ∀ (tiles : List Tile) (acc : List JVal) (trace : List CtrlEvent)
      (r : Except PyError (List JVal)),
    bboxTileLoop C bbox fv vf layer tiles acc = (trace, r) →
    ∀ comps, CtrlEvent.pipelineCall comps ∈ trace →
    bbox_pipeline_components fv vf bbox = .ok comps := by
  intro tiles
  induction tiles with
  | nil =>
      intro acc trace r h comps hc
      unfold bboxTileLoop at h
      injection h with h1 h2
      subst h1
      simp at hc
  | cons tile rest ih =>
      intro acc trace r h comps hc
      unfold bboxTileLoop at h
      dsimp only at h
      split at h
      · rename_i e he
        injection h with h1 h2
        subst h1
        simp at hc
      · rename_i comps2 hcomps2
        injection h with h1 h2
        subst h1
        rcases List.mem_cons.mp hc with hh | hh
        · exact absurd hh (by simp)
        · rcases List.mem_cons.mp hh with hh2 | hh2
          · have h3 : comps = comps2 := by simpa using hh2
            rw [h3]
            exact hcomps2
          · exact ih _ _ _ rfl comps hh2

/-! ## Claims -/

/-- Claim C1 (code bug): on the input `[{"id": "1", "value": "v"}]`,
`detection_features_to_geojson` keeps the `image_id`, `created_at` and
`pixel_geometry` keys with `None` values in the output properties,
contrary to the claim that absent optional attributes are omitted
entirely: the removal pass tests `_property is None` on the *keys* of the
properties dict, which are string literals and never `None`, so nothing is
ever deleted.  The output differs from the claimed
`{"type": "FeatureCollection", "features": [{"type": "Feature",
"geometry": {}, "properties": {"value": "v", "id": "1"}}]}`. -/
theorem C1_detection_null_properties_not_removed :
    detection_features_to_geojson [[("id", JVal.str "1"), ("value", JVal.str "v")]] =
      .ok (.obj [("type", .str "FeatureCollection"),
        ("features", .arr [.obj [("type", .str "Feature"), ("geometry", .obj []),
          ("properties", .obj [("image_id", .null), ("created_at", .null),
            ("pixel_geometry", .null), ("value", .str "v"), ("id", .str "1")])]])]) ∧
    detection_features_to_geojson [[("id", JVal.str "1"), ("value", JVal.str "v")]] ≠
      .ok (.obj [("type", .str "FeatureCollection"),
        ("features", .arr [.obj [("type", .str "Feature"), ("geometry", .obj []),
          ("properties", .obj [("value", .str "v"), ("id", .str "1")])]])]) := by
  have heval : detection_features_to_geojson
      [[("id", JVal.str "1"), ("value", JVal.str "v")]] =
      .ok (.obj [("type", .str "FeatureCollection"),
        ("features", .arr [.obj [("type", .str "Feature"), ("geometry", .obj []),
          ("properties", .obj [("image_id", .null), ("created_at", .null),
            ("pixel_geometry", .null), ("value", .str "v"), ("id", .str "1")])]])]) := rfl
  refine ⟨heval, ?_⟩
  intro h
  rw [heval] at h
  have h2 := Except.ok.inj h
  simp at h2

/-- Claim C2, counterexample: `merged_features_list_to_geojson` returns a
serialized JSON *string*, so applying `geojson_to_features_list` directly
to its result — here at the concrete input `[]` — raises `TypeError`
(string indices must be integers) instead of returning the original
list. -/
theorem C2_roundtrip_counterexample :
    geojson_to_features_list (.str (merged_features_list_to_geojson [])) =
      .error (.typeError "string indices must be integers") ∧
    geojson_to_features_list (.str (merged_features_list_to_geojson [])) ≠
      .ok (.arr []) := by
  refine ⟨rfl, ?_⟩
  intro h
  simp [geojson_to_features_list, pyGet] at h

/-- Claim C2 (amended): for every ordered list of Features,
`geojson_to_features_list` applied to the FeatureCollection dict that
`merged_features_list_to_geojson` serializes (i.e. before `json.dumps`)
returns the original ordered list unchanged. -/
theorem C2_roundtrip_amended (features_list : List JVal) :
    geojson_to_features_list (merged_features_collection features_list) =
      .ok (.arr features_list) := rfl

/-- Claim C3 (code bug): on a source feature `{"properties": {"id": 1}}`
and a destination feature `{"properties": {"id": 1, "extra": 2}}` joined on
key `"id"`, `join_geojson_with_keys` raises `TypeError` instead of copying
`extra` into the source: the copy line subscripts `old_properties` — a
Python *list* of the source feature's property names — with the string
`"properties"`. -/
theorem C3_join_typeerror_eval :
    join_geojson_with_keys
      (.obj [("features", .arr [.obj [("properties", .obj [("id", .int 1)])]])])
      "id"
      (.obj [("features", .arr [.obj [("properties",
        .obj [("id", .int 1), ("extra", .int 2)])]])])
      "id" =
    .error (.typeError "list indices must be integers or slices, not str") := rfl

/-- Claim C4, counterexample: on the record `{}` (no `geometry`),
`feature_to_geojson` fails with a plain `KeyError` from the dict lookup
`json_data["geometry"]`, not with the `MissingGeometryError` the claim
names. -/
theorem C4_missing_geometry_counterexample :
    feature_to_geojson [] = .error (.keyError "geometry") ∧
    (PyError.keyError "geometry") ≠ PyError.missingGeometryError := by
  refine ⟨rfl, ?_⟩
  intro h
  cases h

/-- Claim C4 (amended): for every record without duplicate keys, if
`geometry` is absent `feature_to_geojson` fails with `KeyError "geometry"`
(not `MissingGeometryError`); if `geometry` is present it succeeds and
produces a Feature whose properties mapping contains exactly every
non-geometry attribute verbatim under its original name, in order. -/
theorem C4_feature_to_geojson_amended (d : List (String × JVal))
    (hnd : (d.map Prod.fst).Nodup) :
    (dictGet d "geometry" = none →
      feature_to_geojson d = .error (.keyError "geometry")) ∧
    (∀ g, dictGet d "geometry" = some g →
      feature_to_geojson d = .ok (.obj [("type", .str "Feature"),
        ("geometry", g),
        ("properties", .obj (d.filter (fun kv => kv.1 ≠ "geometry")))])) := by
  constructor
  · intro hnone
    unfold feature_to_geojson
    rw [hnone]
  · intro g hsome
    unfold feature_to_geojson
    rw [hsome]
    dsimp only
    rw [foldl_dictSet _ _ [] (List.Nodup.filter _ hnd) (by simp)]
    rw [List.nil_append, filtered_keys_map_get d hnd]

/-- Claim C4 witness: the amended theorem applied to the records
`{"geometry": "g", "a": 1}` (success with `a` verbatim in properties) and
`{}` (KeyError). -/
theorem C4_feature_to_geojson_amended_witness :
    feature_to_geojson [("geometry", JVal.str "g"), ("a", JVal.int 1)] =
      .ok (.obj [("type", .str "Feature"), ("geometry", .str "g"),
        ("properties", .obj [("a", .int 1)])]) ∧
    feature_to_geojson [] = .error (.keyError "geometry") :=
  ⟨(C4_feature_to_geojson_amended [("geometry", JVal.str "g"), ("a", JVal.int 1)]
      (by simp)).2 (.str "g") (by rfl),
   (C4_feature_to_geojson_amended [] (by simp)).1 (by rfl)⟩

/-- Claim C5: in every call of `get_map_features_in_bbox_controller` whose
filters validate to `vf`, every stage list passed to the filter pipeline
(every `pipelineCall` event of the trace) is exactly, in order: a
`filter_values` stage present iff `filter_values` is non-null, a
`features_in_bounding_box` stage always present and carrying the original
query bbox, an `existed_at` stage present iff the validated filters
specify `existed_at`, and an `existed_before` stage present iff they
specify `existed_before`; absent stages are empty (skip) descriptors —
i.e. the list equals `spec_stage_list`, the stage list as the spec words
it. -/
theorem C5_bbox_stage_list (C : BboxCollaborators) (bbox : JVal)
    (fv : Option JVal) (filters vf : List (String × JVal)) (layer : String)
    (trace : List CtrlEvent) (r : Except PyError String)
    (comps : List JVal)
    (hv : points_traffic_signs_check filters = .ok vf)
    (hc : get_map_features_in_bbox_controller C bbox fv filters layer = (trace, r))
    (hm : CtrlEvent.pipelineCall comps ∈ trace) :
    comps = spec_stage_list fv ((dictGet vf "existed_at").getD .null)
      ((dictGet vf "existed_before").getD .null) bbox := by
  unfold get_map_features_in_bbox_controller at hc
  rw [hv] at hc
  dsimp only at hc
  have key : bbox_pipeline_components fv vf bbox = .ok comps := by
    split at hc
    · rename_i trace2 e hloop
      injection hc with h1 h2
      subst h1
      exact bboxTileLoop_pipeline_events C bbox fv vf layer C.tiles [] trace2 _
        hloop comps hm
    · rename_i trace2 features hloop
      injection hc with h1 h2
      subst h1
      exact bboxTileLoop_pipeline_events C bbox fv vf layer C.tiles [] trace2 _
        hloop comps hm
  have key2 := bbox_pipeline_components_of_validated fv filters vf bbox hv
  rw [key] at key2
  exact Except.ok.inj key2

/-- Claim C5 witness: a concrete one-tile call with
`filters = {"existed_at": "2020"}` and no filter values; the stage list of
its single pipeline call equals the spec's stage list. -/
theorem C5_bbox_stage_list_witness :
    ([JVal.obj [],
      JVal.obj [("filter", .str "features_in_bounding_box"), ("bbox", .obj [])],
      JVal.obj [("filter", .str "existed_at"), ("existed_at", .str "2020")],
      JVal.obj []] : List JVal) =
    spec_stage_list none
      ((dictGet [("existed_at", JVal.str "2020"), ("existed_before", JVal.null)]
        "existed_at").getD .null)
      ((dictGet [("existed_at", JVal.str "2020"), ("existed_before", JVal.null)]
        "existed_before").getD .null) (.obj []) :=
  C5_bbox_stage_list
    ⟨[⟨1, 2, 14⟩], fun _ => "u", fun _ => "v", fun _ _ => .obj [], fun _ _ => []⟩
    (.obj []) none [("existed_at", .str "2020")]
    [("existed_at", JVal.str "2020"), ("existed_before", JVal.null)]
    "points"
    [CtrlEvent.fetchTile "u", CtrlEvent.pipelineCall
      [JVal.obj [],
       JVal.obj [("filter", .str "features_in_bounding_box"), ("bbox", .obj [])],
       JVal.obj [("filter", .str "existed_at"), ("existed_at", .str "2020")],
       JVal.obj []]]
    (.ok (merged_features_list_to_geojson []))
    [JVal.obj [],
     JVal.obj [("filter", .str "features_in_bounding_box"), ("bbox", .obj [])],
     JVal.obj [("filter", .str "existed_at"), ("existed_at", .str "2020")],
     JVal.obj []]
    (by rfl) (by rfl) (by simp)

/-- Claim C6: in `get_map_features_in_bbox_controller`, filter validation
runs first, and a validation error aborts the call with an *empty* event
trace: no tile HTTP request is ever issued before (or after) the
validation error is raised. -/
theorem C6_validation_before_fetch (C : BboxCollaborators) (bbox : JVal)
    (fv : Option JVal) (filters : List (String × JVal)) (layer : String)
    (e : PyError)
    (hv : points_traffic_signs_check filters = .error e) :
    get_map_features_in_bbox_controller C bbox fv filters layer =
      ([], .error e) := by
  unfold get_map_features_in_bbox_controller
  rw [hv]

/-- Claim C6 witness: a concrete call with an invalid filter key is
rejected with an empty trace — no fetch was attempted. -/
theorem C6_validation_before_fetch_witness :
    get_map_features_in_bbox_controller
      ⟨[⟨1, 2, 14⟩], fun _ => "u", fun _ => "v", fun _ _ => .obj [], fun _ _ => []⟩
      (.obj []) none [("bogus", .int 0)] "points" =
    ([], .error (.invalidKwargError "points_traffic_signs_check" "bogus"
      (.int 0) ["existed_at", "existed_before"])) :=
  C6_validation_before_fetch _ _ _ _ _ _ (by rfl)

/-- Claim C7: for every kwargs mapping whose keys are all allowed, with no
daterange contradiction, holding an integer `zoom` below 14 or above 17,
`kwarg_check` fails with `InvalidOptionError` whose listed options are
`[14, 15, 16, 17]`. -/
theorem C7_zoom_invalid_option (kw : List (String × JVal))
    (options : List String) (callback : String) (z : Int)
    (hkeys : ∀ kv ∈ kw, kv.1 ∈ options)
    (hcontra : ((dictHas kw "min_date" || dictHas kw "max_date") &&
      dictHas kw "daterange") = false)
    (hz : dictGet kw "zoom" = some (.int z))
    (hrange : z < 14 ∨ 17 < z) :
    kwarg_check (some kw) options callback =
      .error (.invalidOptionError "zoom" (.int z)
        [.int 14, .int 15, .int 16, .int 17]) := by
  unfold kwarg_check
  dsimp only
  rw [find?_allowed_eq_none kw options hkeys]
  simp only [hcontra, if_false, Bool.false_eq_true, if_neg]
  unfold kwarg_check_zoom
  have hhas : dictHas kw "zoom" = true := by simp [dictHas, hz]
  rw [hhas, hz]
  rcases hrange with h | h
  · have : decide (z < 14) = true := by simpa using h
    simp [pyLtInt, this]
  · have h1 : decide (z < 14) = false := by simp; omega
    have h2 : decide (z > 17) = true := by simpa using h
    simp [pyLtInt, pyGtInt, h1, h2]

/-- Claim C7 witness: `kwarg_check({"zoom": 20}, options=["zoom"],
callback="x")` fails with `InvalidOptionError` listing `[14, 15, 16,
17]`. -/
theorem C7_zoom_invalid_option_witness :
    kwarg_check (some [("zoom", JVal.int 20)]) ["zoom"] "x" =
      .error (.invalidOptionError "zoom" (.int 20)
        [.int 14, .int 15, .int 16, .int 17]) :=
  C7_zoom_invalid_option [("zoom", JVal.int 20)] ["zoom"] "x" 20
    (by simp) (by rfl) (by rfl) (Or.inr (by norm_num))

/-- Claim C8: for every kwargs mapping whose keys are all allowed and that
contains `daterange` together with `min_date` or `max_date`, `kwarg_check`
fails with `ContradictingError`. -/
theorem C8_daterange_contradiction (kw : List (String × JVal))
    (options : List String) (callback : String)
    (hkeys : ∀ kv ∈ kw, kv.1 ∈ options)
    (hdr : dictHas kw "daterange" = true)
    (hmm : dictHas kw "min_date" = true ∨ dictHas kw "max_date" = true) :
    kwarg_check (some kw) options callback =
      .error (.contradictingError "daterange" "min_date/max_date") := by
  unfold kwarg_check
  dsimp only
  rw [find?_allowed_eq_none kw options hkeys]
  have hcond : ((dictHas kw "min_date" || dictHas kw "max_date") &&
      dictHas kw "daterange") = true := by
    rcases hmm with h | h <;> simp [h, hdr]
  simp [hcond]

/-- Claim C8 witness: `kwarg_check({"daterange": "2021", "min_date":
"2020"}, ...)` fails with `ContradictingError`. -/
theorem C8_daterange_contradiction_witness :
    kwarg_check (some [("daterange", JVal.str "2021"), ("min_date", JVal.str "2020")])
      ["daterange", "min_date", "max_date"] "x" =
      .error (.contradictingError "daterange" "min_date/max_date") :=
  C8_daterange_contradiction
    [("daterange", JVal.str "2021"), ("min_date", JVal.str "2020")]
    ["daterange", "min_date", "max_date"] "x"
    (by simp) (by rfl) (Or.inl (by rfl))

/-- Claim C9: `kwarg_check` called with `kwargs = None` never returns
`True`: the per-key loop is guarded by the `None` check, but the
subsequent membership test (`"min_date" in kwargs`) is applied to
`kwargs` unconditionally, so the call fails with `TypeError`. -/
theorem C9_kwargs_none_typeerror (options : List String) (callback : String) :
    kwarg_check none options callback =
      .error (.typeError "argument of type NoneType is not iterable") ∧
    kwarg_check none options callback ≠ .ok true := by
  refine ⟨rfl, ?_⟩
  intro h
  simp [kwarg_check] at h

/-- Claim C10: for every detection record list — including records that
carry an `image` attribute with an id — every feature output by
`detection_features_to_geojson` has its `image_id` property equal to
`None`: the guard `"image" in "feature"` tests membership in the string
literal `"feature"`, which is false for every input. -/
theorem C10_image_id_always_none (fl : List (List (String × JVal)))
    (out : JVal) (feats : List JVal)
    (hout : detection_features_to_geojson fl = .ok out)
    (hfeats : pyGet out "features" = .ok (.arr feats)) :
    ∀ feat ∈ feats, featureImageId feat = some JVal.null := by
  unfold detection_features_to_geojson at hout
  split at hout
  · exact absurd hout (by simp)
  · rename_i fs hfs
    injection hout with h2
    subst h2
    have hfl : feats = fs.map remove_none_properties := by
      have hred : pyGet (JVal.obj [("type", .str "FeatureCollection"),
          ("features", .arr (fs.map remove_none_properties))]) "features" =
          .ok (.arr (fs.map remove_none_properties)) := rfl
      rw [hred] at hfeats
      injection hfeats with h3
      injection h3 with h4
      exact h4.symm
    subst hfl
    intro feat hfeat
    obtain ⟨f0, hf0mem, rfl⟩ := List.mem_map.mp hfeat
    obtain ⟨rec, hrec⟩ := detectionFeatures_mem fl fs hfs f0 hf0mem
    obtain ⟨geom, ca, pg, val, fid, rfl⟩ := detection_feature_shape rec f0 hrec
    rfl

/-- Claim C10 witness: the record
`{"image": {"geometry": {"coordinates": [1, 2]}, "id": "99"}, "id": "1"}`
carries an image with an id, yet the output feature's `image_id` property
is `None`. -/
theorem C10_image_id_always_none_witness :
    featureImageId (.obj [("type", .str "Feature"),
      ("geometry", .obj [("type", .str "Point"),
        ("coordinates", .arr [.int 1, .int 2])]),
      ("properties", .obj [("image_id", .null), ("created_at", .null),
        ("pixel_geometry", .null), ("value", .null),
        ("id", .str "1")])]) = some JVal.null :=
  C10_image_id_always_none
    [[("image", .obj [("geometry", .obj [("coordinates", .arr [.int 1, .int 2])]),
       ("id", .str "99")]), ("id", .str "1")]]
    (.obj [("type", .str "FeatureCollection"),
      ("features", .arr [.obj [("type", .str "Feature"),
        ("geometry", .obj [("type", .str "Point"),
          ("coordinates", .arr [.int 1, .int 2])]),
        ("properties", .obj [("image_id", .null), ("created_at", .null),
          ("pixel_geometry", .null), ("value", .null),
          ("id", .str "1")])]])])
    [.obj [("type", .str "Feature"),
      ("geometry", .obj [("type", .str "Point"),
        ("coordinates", .arr [.int 1, .int 2])]),
      ("properties", .obj [("image_id", .null), ("created_at", .null),
        ("pixel_geometry", .null), ("value", .null),
        ("id", .str "1")])]]
    (by rfl) (by rfl)
    (.obj [("type", .str "Feature"),
      ("geometry", .obj [("type", .str "Point"),
        ("coordinates", .arr [.int 1, .int 2])]),
      ("properties", .obj [("image_id", .null), ("created_at", .null),
        ("pixel_geometry", .null), ("value", .null),
        ("id", .str "1")])])
    (by simp)
